import Mathlib

/-!
# Verification of `src/utils/image_utils.py`

A shallow embedding of the image-utility module of the WeaAQI repository,
together with proofs of the specified properties.

The module's own logic (branching, arithmetic on sizes and offsets, the
screenshot fallback loop, the hashing pipeline) is translated faithfully from
the Python source.  Calls into external libraries (PIL, requests, hashlib,
subprocess, the filesystem) are modelled as follows:

* PIL geometry (`Image.crop`, `Image.resize`, `Image.rotate(expand=1)`) is
  modelled at the level of image sizes, which is all the claims about
  geometry concern.  `crop((l,u,r,b))` yields a size `(r-l, b-u)` and
  `resize((w,h))` yields exactly `(w,h)`, per PIL's documented contract.
* `Image.convert("RGB")` and `Image.tobytes()` are modelled on an explicit
  pixel representation (mode tag + row-major channel data), per PIL's raw
  encoding for mode `RGB` (three bytes per pixel, row-major).
* `hashlib.sha256(...).hexdigest()` is implemented in full (FIPS 180-4),
  on `Nat` with explicit reduction modulo `2^32`.
* Networking, `shutil.which`, `subprocess.run` and temp-file operations are
  modelled as an environment: a value describing what the external world
  answers at each call site.  The function under verification is then a pure
  function of that environment, translated line by line from the source.

Python `int()` truncation, float division (modelled exactly on `ℚ`; the
quantities involved are ratios of machine-sized integers) and Python's floor
division `//` are made explicit below.
-/

/-! ## Sizes and elementary PIL geometry -/

/-- The size of a PIL image: `image.size == (width, height)`. -/
structure ImgSize where
  width : Int
  height : Int
deriving DecidableEq, Repr

/-- `image.crop((left, upper, right, lower))` returns an image of size
`(right - left, lower - upper)` (PIL pads with background if the box leaves
the source; only the size matters here). -/
def pilCrop (left upper right lower : Int) : ImgSize :=
  ⟨right - left, lower - upper⟩

/-- `image.resize((w, h), Image.LANCZOS)` returns an image of exactly the
requested size. -/
def pilResize (w h : Int) : ImgSize :=
  ⟨w, h⟩

/-- `image.rotate(angle, expand=1)` for the right-angle rotations produced in
this module: a multiple of 180° keeps the size, 90°/270° swap the axes. -/
def pilRotateExpand (sz : ImgSize) (angle : Nat) : ImgSize :=
  if angle % 180 = 0 then sz else ⟨sz.height, sz.width⟩

/-- Python `int(q)` on a float/rational: truncation toward zero. -/
def pyInt (q : ℚ) : Int :=
  if 0 ≤ q then ⌊q⌋ else ⌈q⌉

/-- Python floor division `a // b` on integers. -/
def pyFloorDiv (a b : Int) : Int :=
  Int.fdiv a b

/-! ## `resize_image`

Translated line by line from the source.  The Python function receives a PIL
image and returns a PIL image; the embedding records every intermediate
quantity the source computes (offsets, crop size) together with the final
size, so the theorems can speak about each of them. -/

/-- Every quantity `resize_image` computes on its way to the result:
the crop offsets, the crop size, and the size of the returned image. -/
structure ResizeTrace where
  x_offset : Int
  y_offset : Int
  new_width : Int
  new_height : Int
  cropped : ImgSize
  result : ImgSize
deriving DecidableEq, Repr

/-- `resize_image(image, desired_size, image_settings=[])`.

`img_width, img_height` is `image.size`; `desired_width, desired_height` is
`desired_size` after the source's `int(...)` coercion.  Python evaluates
`img_width / img_height` and `desired_width / desired_height` in float
arithmetic; the embedding uses exact rationals.  Python raises
`ZeroDivisionError` when `img_height` or `desired_height` is zero, so the
theorems below restrict to positive sizes. -/
def resize_image (img_width img_height : Int) (desired_width desired_height : Int)
    (image_settings : List String) : ResizeTrace :=
  let img_ratio : ℚ := (img_width : ℚ) / (img_height : ℚ)
  let desired_ratio : ℚ := (desired_width : ℚ) / (desired_height : ℚ)
  let keep_width : Bool := image_settings.contains "keep-width"
  -- x_offset, y_offset = 0,0 ; new_width, new_height = img_width, img_height
  let st : Int × Int × Int × Int :=
    if img_ratio > desired_ratio then
      -- image is wider than desired aspect ratio
      let new_width := pyInt ((img_height : ℚ) * desired_ratio)
      let x_offset := if ¬ keep_width then pyFloorDiv (img_width - new_width) 2 else 0
      (x_offset, 0, new_width, img_height)
    else
      -- image is taller than desired aspect ratio
      let new_height := pyInt ((img_width : ℚ) / desired_ratio)
      let y_offset := if ¬ keep_width then pyFloorDiv (img_height - new_height) 2 else 0
      (0, y_offset, img_width, new_height)
  let x_offset := st.1
  let y_offset := st.2.1
  let new_width := st.2.2.1
  let new_height := st.2.2.2
  let cropped := pilCrop x_offset y_offset (x_offset + new_width) (y_offset + new_height)
  { x_offset := x_offset
    y_offset := y_offset
    new_width := new_width
    new_height := new_height
    cropped := cropped
    result := pilResize desired_width desired_height }

/-! ## `change_orientation`

The source computes a rotation angle from the orientation string; when the
string is neither `'horizontal'` nor `'vertical'` the local variable `angle`
is never assigned and Python raises `NameError` (`UnboundLocalError`).  The
embedding returns `none` for that failure. -/

/-- The angle `change_orientation` rotates by: `'horizontal' ↦ 0`,
`'vertical' ↦ 90`, then `(angle + 180) % 360` when `inverted`; `none` models
the `NameError` on any other orientation string. -/
def change_orientation_angle (orientation : String) (inverted : Bool) : Option Nat :=
  let angle? : Option Nat :=
    if orientation = "horizontal" then some 0
    else if orientation = "vertical" then some 90
    else none
  match angle? with
  | none => none
  | some angle => some (if inverted then (angle + 180) % 360 else angle)

/-- `change_orientation(image, orientation, inverted=False)`: rotate by the
computed angle with `expand=1`; `none` models the `NameError` on an
unrecognised orientation. -/
def change_orientation (sz : ImgSize) (orientation : String) (inverted : Bool) :
    Option ImgSize :=
  match change_orientation_angle orientation inverted with
  | none => none
  | some angle => some (pilRotateExpand sz angle)

/-! ## The screenshot renderer

`take_screenshot` iterates the fixed executable list, calling `shutil.which`,
`subprocess.run`, `os.path.exists` for each candidate.  The external world's
answers are the environment: for each executable name, either it is absent
from `PATH`, or running it times out, raises, or completes with a return
code, decoded stderr text, and whether the output file now exists. -/

/-- The fixed candidate list `_CHROMIUM_EXECUTABLES` from the source. -/
def _CHROMIUM_EXECUTABLES : List String :=
  ["chromium-browser", "chromium", "google-chrome", "google-chrome-stable",
   "chromium-headless-shell"]

/-- What the world does when `take_screenshot` tries one executable. -/
inductive ExecOutcome where
  /-- `shutil.which(executable)` is `None`: not on `PATH`. -/
  | absent : ExecOutcome
  /-- `subprocess.run` raises `subprocess.TimeoutExpired`. -/
  | timeout : ExecOutcome
  /-- `subprocess.run` raises some other exception, rendered as `msg`. -/
  | raised (msg : String) : ExecOutcome
  /-- The process completed: return code, decoded+stripped stderr text, and
  whether `os.path.exists(img_file_path)` holds afterwards. -/
  | ran (returncode : Int) (stderrText : String) (fileExists : Bool) : ExecOutcome
deriving DecidableEq, Repr

/-- An error message recorded in `errors` (the source both appends it to the
list and emits it with `logger.error` at the same spot; the constructor
fields are exactly what the corresponding f-string interpolates). -/
inductive ErrMsg where
  /-- `f"{executable} timed out after {timeout_seconds} seconds"` (the
  `timeout_seconds` variable; `TimeoutExpired` presupposes it was passed). -/
  | timedOut (executable : String) (timeout_seconds : Option ℚ) : ErrMsg
  /-- `f"{executable} failed: {exc}"` -/
  | failed (executable : String) (exc : String) : ErrMsg
  /-- `f"{executable} exited with code {returncode}: {stderr}"` -/
  | exited (executable : String) (returncode : Int) (stderr : String) : ErrMsg
deriving DecidableEq, Repr

/-- One iteration of the candidate loop, as a structured outcome. -/
inductive StepResult where
  /-- `shutil.which` returned `None`: `continue` without running anything. -/
  | notOnPath : StepResult
  /-- `result.returncode == 0 and os.path.exists(img_file_path)`:
  set `screenshot_taken = True` and `break`. -/
  | success : StepResult
  /-- `result.returncode == 132`: `continue` recording nothing. -/
  | silentSkip : StepResult
  /-- Append `e` to `errors`, `logger.error(e)`, and continue. -/
  | recordError (e : ErrMsg) : StepResult
deriving DecidableEq, Repr

/-- `timeout_seconds = (timeout_ms / 1000.0) if timeout_ms else None`:
Python truthiness makes both `None` and `0` fall to `None`. -/
def timeout_seconds_of (timeout_ms : Option ℚ) : Option ℚ :=
  match timeout_ms with
  | none => none
  | some v => if v = 0 then none else some (v / 1000)

/-- `if timeout_seconds: run_kwargs["timeout"] = timeout_seconds` — the
`timeout` keyword actually passed to `subprocess.run`, again under Python
truthiness. -/
def run_kwargs_timeout (timeout_seconds : Option ℚ) : Option ℚ :=
  match timeout_seconds with
  | none => none
  | some v => if v = 0 then none else some v

/-- The body of the candidate loop for one executable, translated from the
source in order: the `shutil.which` guard, the two `except` arms, the
success test, the 132 test, then the error-recording fall-through. -/
def attemptStep (timeout_seconds : Option ℚ) (outcome : ExecOutcome)
    (executable : String) : StepResult :=
  match outcome with
  | .absent => .notOnPath
  | .timeout => .recordError (.timedOut executable timeout_seconds)
  | .raised msg => .recordError (.failed executable msg)
  | .ran returncode stderrText fileExists =>
    if returncode = 0 ∧ fileExists then .success
    else if returncode = 132 then .silentSkip
    else .recordError (.exited executable returncode stderrText)

/-- The candidate loop: returns `screenshot_taken` and the accumulated
`errors` list (in recording order). -/
def screenshotLoop (timeout_seconds : Option ℚ) (env : String → ExecOutcome) :
    List String → List ErrMsg → Bool × List ErrMsg
  | [], errors => (false, errors)
  | executable :: rest, errors =>
    match attemptStep timeout_seconds (env executable) executable with
    | .notOnPath => screenshotLoop timeout_seconds env rest errors
    | .success => (true, errors)
    | .silentSkip => screenshotLoop timeout_seconds env rest errors
    | .recordError e => screenshotLoop timeout_seconds env rest (errors ++ [e])

/-- The number of candidates for which `shutil.which` finds an executable —
the candidates the loop attempts to run (when no candidate succeeds, the
loop runs every present one). -/
def attemptedCount (env : String → ExecOutcome) (exes : List String) : Nat :=
  (exes.filter (fun e => decide (env e ≠ ExecOutcome.absent))).length

/-- What `take_screenshot` emits through `logger.error` after the loop. -/
inductive FinalLog where
  /-- `"Failed to take screenshot: No chromium executable found"`. -/
  | noExecutableFound : FinalLog
  /-- `"Failed to take screenshot:"` followed by each recorded error. -/
  | errorList (errors : List ErrMsg) : FinalLog
  /-- Success: no failure summary is logged. -/
  | success : FinalLog
deriving DecidableEq, Repr

/-- An in-memory decoded image for the screenshot path; its contents are
irrelevant to the renderer claims, so it is abstract but concrete. -/
structure Shot where
  id : Nat
deriving DecidableEq, Repr

/-- The environment of one `take_screenshot` call. -/
structure ScreenshotEnv where
  /-- The world's answer for each executable name. -/
  outcome : String → ExecOutcome
  /-- What `Image.open(img_file_path)` (then `.copy()`) yields on success. -/
  loadedImage : Shot

/-- `take_screenshot(target, dimensions, timeout_ms=None)`: run the candidate
loop; on failure return `None` and log the summary (`if not errors` chooses
the no-executable message, otherwise the list); on success load the output
file.  The temp-file bookkeeping of the `finally` block does not affect the
returned value and is not modelled here. -/
def take_screenshot (env : ScreenshotEnv) (timeout_ms : Option ℚ) :
    Option Shot × FinalLog :=
  let timeout_seconds := timeout_seconds_of timeout_ms
  let r := screenshotLoop timeout_seconds env.outcome _CHROMIUM_EXECUTABLES []
  let screenshot_taken := r.1
  let errors := r.2
  if screenshot_taken then
    (some env.loadedImage, .success)
  else
    (none, if errors = [] then .noExecutableFound else .errorList errors)

/-! ## `take_screenshot_html`

The body is one `try` block: create a temp `.html` file, write the string,
call `take_screenshot` on the path, `os.remove` the file; `except Exception`
logs and falls through to `return image`.  Each external call can raise; the
environment says which (if any) does.  `take_screenshot` itself converts all
loop failures to `None`, but its `finally` block calls `os.remove` on the
output file, and an exception there propagates out of `take_screenshot` —
`shotRaises` models that. -/

/-- The environment of one `take_screenshot_html` call. -/
structure HtmlEnv where
  /-- `tempfile.NamedTemporaryFile(suffix=".html", delete=False)` succeeds. -/
  createOk : Bool
  /-- `html_file.write(html_str.encode("utf-8"))` succeeds. -/
  writeOk : Bool
  /-- The inner `take_screenshot(html_file_path, ...)` raises (only possible
  from the `os.remove` in its `finally` block). -/
  shotRaises : Bool
  /-- The value the inner `take_screenshot` returns when it does not raise. -/
  shotResult : Option Shot
  /-- `os.remove(html_file_path)` succeeds. -/
  removeOk : Bool

/-- The observable outcome of `take_screenshot_html`. -/
structure HtmlOutcome where
  /-- The returned value. -/
  result : Option Shot
  /-- The temporary `.html` file was created. -/
  htmlFileCreated : Bool
  /-- The temporary `.html` file was deleted before returning. -/
  htmlFileDeleted : Bool
  /-- The `except` arm ran: `logger.error(f"Failed to take screenshot: ...")`. -/
  exceptionLogged : Bool
  /-- An exception escaped to the caller. -/
  raisedToCaller : Bool
deriving DecidableEq, Repr

/-- `take_screenshot_html(html_str, dimensions, timeout_ms=None)`, translated
statement by statement: `image = None`; create the temp file; write; call the
renderer on the file path, assigning `image`; remove the file; on any
exception, log and fall through; `return image`. -/
def take_screenshot_html (env : HtmlEnv) : HtmlOutcome :=
  -- image = None
  if ¬ env.createOk then
    -- exception inside NamedTemporaryFile: nothing created, image still None
    { result := none, htmlFileCreated := false, htmlFileDeleted := false,
      exceptionLogged := true, raisedToCaller := false }
  else if ¬ env.writeOk then
    -- exception in write: file exists, os.remove never reached
    { result := none, htmlFileCreated := true, htmlFileDeleted := false,
      exceptionLogged := true, raisedToCaller := false }
  else if env.shotRaises then
    -- take_screenshot raised: the assignment to image never completed
    { result := none, htmlFileCreated := true, htmlFileDeleted := false,
      exceptionLogged := true, raisedToCaller := false }
  else if ¬ env.removeOk then
    -- image = take_screenshot(...) succeeded, then os.remove raised:
    -- the except arm logs, and `return image` returns the renderer's value
    { result := env.shotResult, htmlFileCreated := true, htmlFileDeleted := false,
      exceptionLogged := true, raisedToCaller := false }
  else
    { result := env.shotResult, htmlFileCreated := true, htmlFileDeleted := true,
      exceptionLogged := false, raisedToCaller := false }

/-! ## `get_image`

`requests.get` happens before any guard, so network-layer exceptions
propagate; the embedding therefore starts from the response the GET
produced.  `Image.open(BytesIO(response.content))` is the external decoder;
it is a parameter, applied exactly when the source applies it. -/

/-- The response of `requests.get(image_url)`. -/
structure HttpResponse where
  status_code : Nat
  /-- `response.content`, the raw body bytes. -/
  content : List Nat
deriving DecidableEq, Repr

/-- `get_image(image_url)` given the response: decode on `200 <= status_code
< 300 or status_code == 304`, otherwise log an error and leave `img = None`.
Returns the result together with whether the error branch logged. -/
def get_image (decode : List Nat → Shot) (response : HttpResponse) :
    Option Shot × Bool :=
  if (200 ≤ response.status_code ∧ response.status_code < 300)
      ∨ response.status_code = 304 then
    (some (decode response.content), false)
  else
    (none, true)

/-! ## SHA-256 (FIPS 180-4)

`compute_image_hash` calls `hashlib.sha256(img_bytes).hexdigest()`; the hash
is implemented here in full on `Nat`, with every word reduced modulo `2^32`.
Messages are lists of byte values. -/

/-- Reduce to a 32-bit word. -/
def w32 (n : Nat) : Nat := n % 4294967296

/-- Rotate a 32-bit word right by `n` (for `0 < n < 32`). -/
def rotr32 (x n : Nat) : Nat := w32 ((x >>> n) ||| (x <<< (32 - n)))

/-- `Ch(x,y,z) = (x ∧ y) ⊕ (¬x ∧ z)` on 32-bit words. -/
def shaCh (x y z : Nat) : Nat := (x &&& y) ^^^ ((x ^^^ 4294967295) &&& z)

/-- `Maj(x,y,z) = (x ∧ y) ⊕ (x ∧ z) ⊕ (y ∧ z)`. -/
def shaMaj (x y z : Nat) : Nat := (x &&& y) ^^^ (x &&& z) ^^^ (y &&& z)

/-- `Σ₀(x) = ROTR²(x) ⊕ ROTR¹³(x) ⊕ ROTR²²(x)`. -/
def shaBigSigma0 (x : Nat) : Nat := rotr32 x 2 ^^^ rotr32 x 13 ^^^ rotr32 x 22

/-- `Σ₁(x) = ROTR⁶(x) ⊕ ROTR¹¹(x) ⊕ ROTR²⁵(x)`. -/
def shaBigSigma1 (x : Nat) : Nat := rotr32 x 6 ^^^ rotr32 x 11 ^^^ rotr32 x 25

/-- `σ₀(x) = ROTR⁷(x) ⊕ ROTR¹⁸(x) ⊕ SHR³(x)`. -/
def shaSmallSigma0 (x : Nat) : Nat := rotr32 x 7 ^^^ rotr32 x 18 ^^^ (x >>> 3)

/-- `σ₁(x) = ROTR¹⁷(x) ⊕ ROTR¹⁹(x) ⊕ SHR¹⁰(x)`. -/
def shaSmallSigma1 (x : Nat) : Nat := rotr32 x 17 ^^^ rotr32 x 19 ^^^ (x >>> 10)

/-- The 64 SHA-256 round constants. -/
def sha256K : List Nat :=
  [1116352408, 1899447441, 3049323471, 3921009573,
   961987163, 1508970993, 2453635748, 2870763221,
   3624381080, 310598401, 607225278, 1426881987,
   1925078388, 2162078206, 2614888103, 3248222580,
   3835390401, 4022224774, 264347078, 604807628,
   770255983, 1249150122, 1555081692, 1996064986,
   2554220882, 2821834349, 2952996808, 3210313671,
   3336571891, 3584528711, 113926993, 338241895,
   666307205, 773529912, 1294757372, 1396182291,
   1695183700, 1986661051, 2177026350, 2456956037,
   2730485921, 2820302411, 3259730800, 3345764771,
   3516065817, 3600352804, 4094571909, 275423344,
   430227734, 506948616, 659060556, 883997877,
   958139571, 1322822218, 1537002063, 1747873779,
   1955562222, 2024104815, 2227730452, 2361852424,
   2428436474, 2756734187, 3204031479, 3329325298]

/-- The SHA-256 initial hash value. -/
def sha256H0 : List Nat :=
  [1779033703, 3144134277, 1013904242, 2773480762,
   1359893119, 2600822924, 528734635, 1541459225]

/-- `n` big-endian bytes of `v`. -/
def beBytes : Nat → Nat → List Nat
  | 0, _ => []
  | n + 1, v => beBytes n (v / 256) ++ [v % 256]

/-- Merkle–Damgård padding: append `0x80`, zeros to 56 mod 64, then the
bit length as 8 big-endian bytes. -/
def sha256pad (msg : List Nat) : List Nat :=
  let len := msg.length
  let zeros := (64 - (len + 9) % 64) % 64
  msg ++ [128] ++ List.replicate zeros 0 ++ beBytes 8 (8 * len)

/-- Group bytes into 32-bit big-endian words. -/
def bytesToWords : List Nat → List Nat
  | b0 :: b1 :: b2 :: b3 :: rest =>
    (((b0 * 256 + b1) * 256 + b2) * 256 + b3) :: bytesToWords rest
  | _ => []

/-- One message-schedule extension step: append
`σ₁(w[t-2]) + w[t-7] + σ₀(w[t-15]) + w[t-16]` (mod `2^32`). -/
def scheduleStep (ws : List Nat) : List Nat :=
  let t := ws.length
  ws ++ [w32 (shaSmallSigma1 (ws.getD (t - 2) 0) + ws.getD (t - 7) 0
              + shaSmallSigma0 (ws.getD (t - 15) 0) + ws.getD (t - 16) 0)]

/-- Extend the 16 block words to the 64 schedule words. -/
def sha256schedule (ws : List Nat) : List Nat :=
  (List.range 48).foldl (fun acc _ => scheduleStep acc) ws

/-- One compression round on the state `[a,b,c,d,e,f,g,h]`, from the round
constant and schedule word. -/
def sha256round (st : List Nat) (kw : Nat × Nat) : List Nat :=
  match st with
  | [a, b, c, d, e, f, g, h] =>
    let t1 := w32 (h + shaBigSigma1 e + shaCh e f g + kw.1 + kw.2)
    let t2 := w32 (shaBigSigma0 a + shaMaj a b c)
    [w32 (t1 + t2), a, b, c, w32 (d + t1), e, f, g]
  | other => other

/-- Compress one 512-bit block (16 words) into the chaining value. -/
def sha256compress (H : List Nat) (block : List Nat) : List Nat :=
  let st := (sha256K.zip (sha256schedule block)).foldl sha256round H
  (H.zip st).map (fun p => w32 (p.1 + p.2))

/-- Fold the compression over the padded message, 64 bytes at a time. -/
def sha256blocks (H : List Nat) (bytes : List Nat) : List Nat :=
  if h : bytes = [] then H
  else
    sha256blocks (sha256compress H (bytesToWords (bytes.take 64))) (bytes.drop 64)
termination_by bytes.length
decreasing_by
  simp only [List.length_drop]
  exact Nat.sub_lt (List.length_pos.mpr h) (by omega)

/-- The hex character of a nibble (lower-case, as Python's `hexdigest`). -/
def hexChar (n : Nat) : Char :=
  if n < 10 then Char.ofNat (48 + n) else Char.ofNat (87 + n)

/-- Two lower-case hex characters of a byte. -/
def byteHex (b : Nat) : List Char := [hexChar (b / 16), hexChar (b % 16)]

/-- `hashlib.sha256(msg).hexdigest()`. -/
def sha256_hexdigest (msg : List Nat) : String :=
  let H := sha256blocks sha256H0 (sha256pad msg)
  String.mk (List.flatten ((List.flatten (H.map (fun w => beBytes 4 w))).map byteHex))

/-! ## Bitmaps with pixel content, `convert("RGB")`, `tobytes`, and
`compute_image_hash` -/

/-- The PIL color modes this module's hash claims concern. -/
inductive PilMode where
  | RGB : PilMode
  | RGBA : PilMode
  | L : PilMode
deriving DecidableEq, Repr

/-- An in-memory decoded image with pixel content: a mode tag and row-major
rows of pixels, each pixel the list of its channel bytes for that mode. -/
structure Bitmap where
  mode : PilMode
  data : List (List (List Nat))
deriving DecidableEq, Repr

/-- One pixel under `convert("RGB")`: `RGB` is unchanged, `RGBA` drops the
alpha channel, `L` replicates the luminance into three channels. -/
def pixelToRGB (mode : PilMode) (px : List Nat) : List Nat :=
  match mode with
  | .RGB => px
  | .RGBA => px.take 3
  | .L =>
    match px with
    | [v] => [v, v, v]
    | other => other

/-- `image.convert("RGB")`. -/
def pilConvertRGB (img : Bitmap) : Bitmap :=
  ⟨.RGB, img.data.map (fun row => row.map (pixelToRGB img.mode))⟩

/-- `image.tobytes()`: the raw channel bytes, row-major. -/
def pilTobytes (img : Bitmap) : List Nat :=
  List.flatten (img.data.map List.flatten)

/-- `compute_image_hash(image)`: `ValueError` on `None` (modelled as
`Except.error` with the source's message), otherwise the hex SHA-256 digest
of `image.convert("RGB").tobytes()`. -/
def compute_image_hash (image : Option Bitmap) : Except String String :=
  match image with
  | none => Except.error "Cannot compute hash of an empty image"
  | some img => Except.ok (sha256_hexdigest (pilTobytes (pilConvertRGB img)))

/-! ## Claims about `resize_image` and `change_orientation` -/

/-- C1 (counterexample): a 100×300 image resized to 100×100 with
`keep-width` set takes the taller branch, where the source guards the
vertical centering by `if not keep_width:` as well — so `y_offset` stays 0
instead of the centered `(img_height - new_height) // 2 = 100` the claim
asserts. -/
theorem C1_counterexample :
    (resize_image 100 300 100 100 ["keep-width"]).y_offset ≠
      pyFloorDiv (300 - (resize_image 100 300 100 100 ["keep-width"]).new_height) 2 ∧
    (resize_image 100 300 100 100 ["keep-width"]).y_offset = 0 := by
  constructor
  · norm_num [resize_image, pyInt, pyFloorDiv, Int.fdiv]
  · norm_num [resize_image, pyInt, pyFloorDiv]

/-- C1 (amended): with `keep-width` in the settings list, `resize_image`
anchors the crop at the origin in **both** branches: `x_offset = 0` when the
source is wider than the target ratio, and `y_offset = 0` (top anchor, not
vertical centering) when it is taller — the `if not keep_width:` guard covers
the height-cropping branch too. -/
theorem C1_keep_width_anchors_both_axes (w h dw dh : Int) (settings : List String)
    (hk : settings.contains "keep-width" = true) :
    (resize_image w h dw dh settings).x_offset = 0 ∧
    (resize_image w h dw dh settings).y_offset = 0 := by
  unfold resize_image
  simp only [hk]
  split <;> simp

/-- C1 (witness): the amended claim at the counterexample's input and at a
wider-than-target input. -/
theorem C1_keep_width_anchors_both_axes_witness :
    (["keep-width"] : List String).contains "keep-width" = true ∧
    ((resize_image 100 300 100 100 ["keep-width"]).x_offset = 0 ∧
     (resize_image 100 300 100 100 ["keep-width"]).y_offset = 0) ∧
    ((resize_image 300 100 100 100 ["keep-width"]).x_offset = 0 ∧
     (resize_image 300 100 100 100 ["keep-width"]).y_offset = 0) :=
  ⟨by decide,
   C1_keep_width_anchors_both_axes 100 300 100 100 ["keep-width"] (by decide),
   C1_keep_width_anchors_both_axes 300 100 100 100 ["keep-width"] (by decide)⟩

/-- C2: for a valid image (positive size) and positive coerced target
dimensions, the image returned by `resize_image` has exactly the desired
size, whatever the aspect ratios and the settings list: the final
`image.resize((desired_width, desired_height), Image.LANCZOS)` fixes the
output size unconditionally. -/
theorem C2_resize_output_is_desired_size (w h dw dh : Int) (settings : List String)
    (hw : 0 < w) (hh : 0 < h) (hdw : 0 < dw) (hdh : 0 < dh) :
    (resize_image w h dw dh settings).result = ⟨dw, dh⟩ :=
  rfl

/-- C2 (witness): the invariant at a concrete input. -/
theorem C2_resize_output_is_desired_size_witness :
    (resize_image 640 480 200 100 []).result = ⟨200, 100⟩ :=
  C2_resize_output_is_desired_size 640 480 200 100 []
    (by decide) (by decide) (by decide) (by decide)

/-- C9: `change_orientation` maps `'horizontal'` to base angle 0 and
`'vertical'` to base angle 90, adds 180 modulo 360 when `inverted`, so the
three cited cases rotate by 0, 270 and 180; and for any other orientation
string the `angle` variable is never assigned, so the call fails (modelled
as `none`). -/
theorem C9_change_orientation_angles :
    change_orientation_angle "horizontal" false = some 0 ∧
    change_orientation_angle "vertical" false = some 90 ∧
    change_orientation_angle "horizontal" true = some 180 ∧
    change_orientation_angle "vertical" true = some 270 ∧
    ∀ o : String, o ≠ "horizontal" → o ≠ "vertical" →
      ∀ (i : Bool) (sz : ImgSize), change_orientation sz o i = none := by
  refine ⟨rfl, rfl, rfl, rfl, ?_⟩
  intro o ho hv i sz
  simp [change_orientation, change_orientation_angle, ho, hv]

/-- C9 (witness): the unrecognised-orientation failure at a concrete
input. -/
theorem C9_change_orientation_angles_witness :
    change_orientation ⟨10, 20⟩ "diagonal" true = none :=
  C9_change_orientation_angles.2.2.2.2 "diagonal" (by decide) (by decide) true ⟨10, 20⟩

/-! ## Claims about `take_screenshot` -/

/-- An environment in which `chromium-browser` is on `PATH` but exits with
code 132, and no other candidate is installed. -/
def envSigill : String → ExecOutcome :=
  fun e => if e = "chromium-browser" then .ran 132 "" false else .absent

/-- C3 (counterexample): with one candidate present that exits 132, exactly
one candidate is attempted, yet `take_screenshot` logs the
no-executable-found message rather than the accumulated error list — the
source chooses the message by `if not errors:`, and the 132 skip records no
error, so "no executable found" is not reserved for the zero-candidates
case. -/
theorem C3_counterexample :
    attemptedCount envSigill _CHROMIUM_EXECUTABLES = 1 ∧
    take_screenshot ⟨envSigill, ⟨0⟩⟩ none = (none, .noExecutableFound) := by
  constructor
  · decide
  · rfl

/-- C3 (amended): when no candidate produces a successful render,
`take_screenshot` returns `none` (no failure in the loop escapes), and logs
the no-executable-found message exactly when the accumulated error list is
empty — which covers the case that no candidate was on `PATH`, but also the
case that every attempted candidate was silently skipped with exit code
132 — and otherwise logs the full accumulated error list. -/
theorem C3_failure_returns_none_and_logs (env : ScreenshotEnv) (timeout_ms : Option ℚ)
    (hfail : (screenshotLoop (timeout_seconds_of timeout_ms) env.outcome
        _CHROMIUM_EXECUTABLES []).1 = false) :
    (take_screenshot env timeout_ms).1 = none ∧
    (take_screenshot env timeout_ms).2 =
      (if (screenshotLoop (timeout_seconds_of timeout_ms) env.outcome
            _CHROMIUM_EXECUTABLES []).2 = []
       then FinalLog.noExecutableFound
       else FinalLog.errorList
         (screenshotLoop (timeout_seconds_of timeout_ms) env.outcome
            _CHROMIUM_EXECUTABLES []).2) := by
  unfold take_screenshot
  simp only [hfail]
  exact ⟨rfl, rfl⟩

/-- C3 (witness): the amended claim in the environment where nothing is on
`PATH`: the loop attempts nothing, records nothing, and the
no-executable-found message is chosen. -/
theorem C3_failure_returns_none_and_logs_witness :
    (take_screenshot ⟨fun _ => .absent, ⟨0⟩⟩ none).1 = none ∧
    (take_screenshot ⟨fun _ => .absent, ⟨0⟩⟩ none).2 =
      (if (screenshotLoop (timeout_seconds_of none) (fun _ => .absent)
            _CHROMIUM_EXECUTABLES []).2 = []
       then FinalLog.noExecutableFound
       else FinalLog.errorList
         (screenshotLoop (timeout_seconds_of none) (fun _ => .absent)
            _CHROMIUM_EXECUTABLES []).2) :=
  C3_failure_returns_none_and_logs ⟨fun _ => .absent, ⟨0⟩⟩ none rfl

/-- C5: in the candidate loop, a completed subprocess with return code 132
is skipped silently — nothing is appended to `errors` (the source logs and
records at the same site, so nothing is logged either) and iteration
continues with the remaining candidates unchanged; any other nonzero return
code appends (and logs) a message carrying that return code and the decoded
stderr text, and also continues. -/
theorem C5_exit_132_silently_skipped (timeout_seconds : Option ℚ)
    (env : String → ExecOutcome) (executable : String) (rest : List String)
    (errors : List ErrMsg) :
    (∀ stderrText fileExists,
      env executable = .ran 132 stderrText fileExists →
      screenshotLoop timeout_seconds env (executable :: rest) errors =
        screenshotLoop timeout_seconds env rest errors) ∧
    (∀ (returncode : Int) (stderrText : String) (fileExists : Bool),
      env executable = .ran returncode stderrText fileExists →
      returncode ≠ 0 → returncode ≠ 132 →
      screenshotLoop timeout_seconds env (executable :: rest) errors =
        screenshotLoop timeout_seconds env rest
          (errors ++ [.exited executable returncode stderrText])) := by
  constructor
  · intro stderrText fileExists henv
    simp [screenshotLoop, attemptStep, henv]
  · intro returncode stderrText fileExists henv h0 h132
    simp [screenshotLoop, attemptStep, henv, h0, h132]

/-- C5 (witness): both parts at concrete inputs: an exit-132 candidate is
dropped without a record, and an exit-7 candidate records its code and
stderr. -/
theorem C5_exit_132_silently_skipped_witness :
    (envSigill "chromium-browser" = .ran 132 "" false →
      screenshotLoop none envSigill ["chromium-browser"] [] =
        screenshotLoop none envSigill [] []) ∧
    ((fun _ => ExecOutcome.ran 7 "boom" false) "chromium" = .ran 7 "boom" false →
      screenshotLoop none (fun _ => .ran 7 "boom" false) ["chromium"] [] =
        screenshotLoop none (fun _ => .ran 7 "boom" false) []
          [.exited "chromium" 7 "boom"]) :=
  ⟨fun h => (C5_exit_132_silently_skipped none envSigill "chromium-browser" [] []).1
      "" false h,
   fun h => (C5_exit_132_silently_skipped none (fun _ => .ran 7 "boom" false)
      "chromium" [] []).2 7 "boom" false h (by decide) (by decide)⟩

/-- C10: a falsy `timeout_ms` (`None` or `0`) makes `timeout_seconds` `None`
and keeps the `timeout` keyword out of `run_kwargs`, so no timeout is
enforced; a truthy `timeout_ms` value `v` yields `timeout_seconds = v/1000`
and that value is passed as the subprocess timeout. -/
theorem C10_falsy_timeout_means_no_timeout (timeout_ms : Option ℚ) :
    ((timeout_ms = none ∨ timeout_ms = some 0) →
      timeout_seconds_of timeout_ms = none ∧
      run_kwargs_timeout (timeout_seconds_of timeout_ms) = none) ∧
    (∀ v : ℚ, timeout_ms = some v → v ≠ 0 →
      timeout_seconds_of timeout_ms = some (v / 1000) ∧
      run_kwargs_timeout (timeout_seconds_of timeout_ms) = some (v / 1000)) := by
  constructor
  · rintro (rfl | rfl) <;> simp [timeout_seconds_of, run_kwargs_timeout]
  · rintro v rfl hv
    have hq : v / 1000 ≠ 0 := div_ne_zero hv (by norm_num)
    simp [timeout_seconds_of, run_kwargs_timeout, hv, hq]

/-- C10 (witness): the claim at `timeout_ms = 0` and at `timeout_ms =
5000`. -/
theorem C10_falsy_timeout_means_no_timeout_witness :
    (timeout_seconds_of (some 0) = none ∧
     run_kwargs_timeout (timeout_seconds_of (some 0)) = none) ∧
    (timeout_seconds_of (some 5000) = some (5000 / 1000) ∧
     run_kwargs_timeout (timeout_seconds_of (some 5000)) = some (5000 / 1000)) :=
  ⟨(C10_falsy_timeout_means_no_timeout (some 0)).1 (Or.inr rfl),
   (C10_falsy_timeout_means_no_timeout (some 5000)).2 5000 rfl (by norm_num)⟩

/-! ## Claims about `take_screenshot_html` -/

/-- An environment where the temp file is created and written, the renderer
returns an image, and then `os.remove` on the `.html` file raises. -/
def envHtmlRemoveFails : HtmlEnv :=
  { createOk := true, writeOk := true, shotRaises := false,
    shotResult := some ⟨7⟩, removeOk := false }

/-- C4 (counterexample): when `os.remove(html_file_path)` raises after a
successful render, the `except` arm catches and logs, but `image` was
already assigned, so the call returns the bitmap — not `None` — and the
temporary `.html` file is not deleted; so neither "deletes the temporary
file regardless of outcome" nor "every exception is converted to a `None`
return" holds. -/
theorem C4_counterexample :
    (take_screenshot_html envHtmlRemoveFails).htmlFileDeleted = false ∧
    (take_screenshot_html envHtmlRemoveFails).result = some ⟨7⟩ ∧
    (take_screenshot_html envHtmlRemoveFails).exceptionLogged = true := by
  refine ⟨rfl, rfl, rfl⟩

/-- C4 (amended): `take_screenshot_html` writes the string to a fresh
temporary `.html` file and invokes the path-based renderer on it; no
exception ever propagates to the caller.  When no external call raises, the
temporary file is deleted regardless of the renderer's success or failure
and the renderer's result is returned.  An exception before the renderer
call completes is caught, logged, and yields `None` with the file left
behind; an exception in the deletion step is caught and logged, but the
renderer's already-assigned result (possibly a bitmap) is returned and the
file is left behind. -/
theorem C4_html_cleanup_and_exception_handling (env : HtmlEnv) :
    (take_screenshot_html env).raisedToCaller = false ∧
    (env.createOk = true → env.writeOk = true → env.shotRaises = false →
      env.removeOk = true →
      take_screenshot_html env =
        { result := env.shotResult, htmlFileCreated := true,
          htmlFileDeleted := true, exceptionLogged := false,
          raisedToCaller := false }) ∧
    ((env.createOk = false ∨ env.writeOk = false ∨ env.shotRaises = true) →
      (take_screenshot_html env).result = none ∧
      (take_screenshot_html env).exceptionLogged = true ∧
      (take_screenshot_html env).htmlFileDeleted = false) ∧
    (env.createOk = true → env.writeOk = true → env.shotRaises = false →
      env.removeOk = false →
      (take_screenshot_html env).result = env.shotResult ∧
      (take_screenshot_html env).exceptionLogged = true ∧
      (take_screenshot_html env).htmlFileDeleted = false) := by
  obtain ⟨c, w, sr, res, rm⟩ := env
  refine ⟨?_, ?_, ?_, ?_⟩
  · cases c <;> cases w <;> cases sr <;> cases rm <;> simp [take_screenshot_html]
  · rintro rfl rfl rfl rfl
    simp [take_screenshot_html]
  · intro hexc
    cases c <;> cases w <;> cases sr <;> cases rm <;>
      simp_all [take_screenshot_html]
  · rintro rfl rfl rfl rfl
    simp [take_screenshot_html]

/-- C4 (witness): the amended claim in the all-succeeding environment with a
failing renderer: the file is still deleted and `None` is returned. -/
theorem C4_html_cleanup_and_exception_handling_witness :
    take_screenshot_html
        { createOk := true, writeOk := true, shotRaises := false,
          shotResult := none, removeOk := true } =
      { result := none, htmlFileCreated := true, htmlFileDeleted := true,
        exceptionLogged := false, raisedToCaller := false } :=
  (C4_html_cleanup_and_exception_handling
      { createOk := true, writeOk := true, shotRaises := false,
        shotResult := none, removeOk := true }).2.1 rfl rfl rfl rfl

/-! ## Claims about `get_image` -/

/-- C6: `get_image` decodes the response body exactly when the status code
is in `[200, 300)` or is exactly 304 (so a 304 also triggers a decode
attempt on the body), and on any other status logs an error and returns
`None` without raising for the HTTP-level failure.  (`requests.get` itself
runs before any guard, so network-layer exceptions propagate; the embedding
starts from the response it produced.) -/
theorem C6_get_image_status_gate (decode : List Nat → Shot)
    (response : HttpResponse) :
    ((200 ≤ response.status_code ∧ response.status_code < 300) ∨
        response.status_code = 304 →
      get_image decode response = (some (decode response.content), false)) ∧
    (¬ ((200 ≤ response.status_code ∧ response.status_code < 300) ∨
        response.status_code = 304) →
      get_image decode response = (none, true)) := by
  constructor
  · intro hs
    simp [get_image, hs]
  · intro hs
    simp [get_image, hs]

/-- C6 (witness): a 304 response decodes its body; a 404 response yields
`None` with an error logged. -/
theorem C6_get_image_status_gate_witness :
    get_image (fun _ => ⟨1⟩) ⟨304, [9]⟩ = (some ⟨1⟩, false) ∧
    get_image (fun _ => ⟨1⟩) ⟨404, [9]⟩ = (none, true) :=
  ⟨(C6_get_image_status_gate (fun _ => ⟨1⟩) ⟨304, [9]⟩).1 (by decide),
   (C6_get_image_status_gate (fun _ => ⟨1⟩) ⟨404, [9]⟩).2 (by decide)⟩

/-! ## Claims about `compute_image_hash` -/

/-- C7: for a non-absent bitmap, `compute_image_hash` is the lower-case hex
SHA-256 digest of the row-major raw pixel bytes of the image converted to
3-channel RGB; consequently any two bitmaps with the same pixel content
after RGB conversion — whatever their original color modes — hash to the
identical digest. -/
theorem C7_hash_is_sha256_of_rgb_bytes (img1 img2 : Bitmap)
    (hsame : pilConvertRGB img1 = pilConvertRGB img2) :
    compute_image_hash (some img1) =
      Except.ok (sha256_hexdigest (pilTobytes (pilConvertRGB img1))) ∧
    compute_image_hash (some img1) = compute_image_hash (some img2) := by
  constructor
  · rfl
  · simp [compute_image_hash, hsame]

/-- C7 (witness): a 1×1 RGBA red pixel and a 1×1 RGB red pixel convert to
the same RGB content, hence hash identically. -/
theorem C7_hash_is_sha256_of_rgb_bytes_witness :
    compute_image_hash (some ⟨.RGBA, [[[255, 0, 0, 255]]]⟩) =
      compute_image_hash (some ⟨.RGB, [[[255, 0, 0]]]⟩) :=
  (C7_hash_is_sha256_of_rgb_bytes ⟨.RGBA, [[[255, 0, 0, 255]]]⟩
      ⟨.RGB, [[[255, 0, 0]]]⟩ (by decide)).2

/-- C8: `compute_image_hash` fails with the explicit `ValueError` message
exactly when its input is absent; on a non-absent input it proceeds to
hashing and returns the digest. -/
theorem C8_hash_error_iff_absent (image : Option Bitmap) :
    (compute_image_hash image =
        Except.error "Cannot compute hash of an empty image" ↔ image = none) ∧
    (∀ img : Bitmap, image = some img →
      compute_image_hash image =
        Except.ok (sha256_hexdigest (pilTobytes (pilConvertRGB img)))) := by
  cases image <;> simp [compute_image_hash]

/-- C8 (witness): the error at `none`, and the `.ok` shape at a concrete
bitmap. -/
theorem C8_hash_error_iff_absent_witness :
    compute_image_hash none =
      Except.error "Cannot compute hash of an empty image" ∧
    compute_image_hash (some ⟨.L, [[[5]]]⟩) =
      Except.ok (sha256_hexdigest (pilTobytes (pilConvertRGB ⟨.L, [[[5]]]⟩))) :=
  ⟨(C8_hash_error_iff_absent none).1.mpr rfl,
   (C8_hash_error_iff_absent (some ⟨.L, [[[5]]]⟩)).2 ⟨.L, [[[5]]]⟩ rfl⟩
